import Mathlib

/-!
A shallow embedding of the data pipeline of `my-swiggy-dashboard/app.py`:
the CSV loader and cleaner (stage 2), the cascading city-options callback
(`set_cities_options`) and the chart callback (`update_graphs`).
Tables are lists of rows, a pandas NaN is `Option.none`, the numeric
columns are `ℚ`.
-/

namespace Swiggy

/-- A cleaned row of the Base Table (one line of the CSV after the stage-2
cleaning).  `dropna` is applied to the columns Price, Avg ratings, State,
City and Food type only, so the restaurant name may still be missing. -/
structure Row where
  restaurant : Option String
  state : String
  city : String
  price : ℚ
  avgRatings : ℚ
  foodType : String
deriving DecidableEq

/-- A raw CSV record before cleaning: the six cells as text. -/
structure RawRow where
  restaurant : String
  state : String
  city : String
  price : String
  avgRatings : String
  foodType : String
deriving DecidableEq

/-- `pd.read_csv` turns an empty cell into NaN; any other cell keeps its
text. -/
def readCell (s : String) : Option String :=
  if s = "" then none else some s

/-- Numeric coercion of one unsigned decimal literal: digits with an
optional decimal point; anything else coerces to NaN (`none`). -/
def parseDec (s : String) : Option ℚ :=
  match s.splitOn "." with
  | [a] => (a.toNat?).map (fun n => (n : ℚ))
  | [a, b] =>
    match a.toNat?, b.toNat? with
    | some i, some f => some ((i : ℚ) + (f : ℚ) / (10 : ℚ) ^ b.length)
    | _, _ => none
  | _ => none

/-- `pd.to_numeric(column, errors=coerce)` on one cell (lines 22-23 of
`app.py`): an optional minus sign followed by a decimal literal parses to a
number, anything else (a missing cell included) coerces to NaN. -/
def to_numeric (s : String) : Option ℚ :=
  if s.startsWith "-" then (parseDec (s.drop 1)).map (fun q => -q) else parseDec s

/-- The stage-2 cleaning of one raw record: coerce Price and Avg ratings to
numbers and drop the row (`dropna`, line 24) when either coercion fails or
State, City or Food type is missing. -/
def cleanRow (r : RawRow) : Option Row :=
  match to_numeric r.price, to_numeric r.avgRatings,
        readCell r.state, readCell r.city, readCell r.foodType with
  | some p, some a, some s, some c, some f =>
    some ⟨readCell r.restaurant, s, c, p, a, f⟩
  | _, _, _, _, _ => none

/-- Stage 2 of `app.py` (lines 22-24): clean every raw record and keep the
valid ones.  The result is the module-level Base Table `df`. -/
def load (t : List RawRow) : List Row :=
  t.filterMap cleanRow

/-- The guarded read of the CSV at start-up (lines 15-19 of `app.py`):
`none` models a missing file (`FileNotFoundError`), on which the script
prints a diagnostic naming the file and calls `exit()` before any app
object is built — embedded as `Except.error` carrying the printed message;
otherwise the cleaned Base Table is produced and the app starts. -/
def startup (source : Option (List RawRow)) : Except String (List Row) :=
  match source with
  | none => Except.error
      "Error: swiggy state .csv not found. Make sure the file is in the same folder as app.py"
  | some t => Except.ok (load t)

/-- Does the first character list begin the second one? -/
def headEq : List Char → List Char → Bool
  | [], _ => true
  | _ :: _, [] => false
  | a :: as, b :: bs => a == b && headEq as bs

/-- Does the first character list occur contiguously inside the second? -/
def subAt (n : List Char) : List Char → Bool
  | [] => n.isEmpty
  | b :: bs => headEq n (b :: bs) || subAt n bs

/-- Python's `needle in hay` on strings: substring containment. -/
def strIn (needle hay : String) : Bool :=
  subAt needle.data hay.data

/-- The price test of `update_graphs` (lines 137-138): Price within the
slider's closed interval. -/
def priceOk (lo hi : ℚ) (r : Row) : Bool :=
  decide (lo ≤ r.price) && decide (r.price ≤ hi)

/-- The cuisine test of `update_graphs` (line 145): `any(cuisine in x for
cuisine in selected_cuisines)` against the raw Food type string. -/
def cuisineOk (selected_cuisines : List String) (r : Row) : Bool :=
  selected_cuisines.any (fun c => strIn c r.foodType)

/-- Lines 130-146 of `app.py`: the filter step of `update_graphs`.  The
three dropdown values and the slider pair are the Filter Selection; an
unset dropdown is the empty list (Python's `None` and `[]` are equally
falsy there).  When every dropdown is unset the untouched Base Table (a
`df.copy()`, equal as a value) is used; otherwise the price bound is
applied first and each set dropdown filters in turn. -/
def filterRows (df : List Row)
    (selected_states selected_cities selected_cuisines : List String)
    (price_range : ℚ × ℚ) : List Row :=
  if selected_states = [] ∧ selected_cities = [] ∧ selected_cuisines = [] then
    df
  else
    let f1 := df.filter (priceOk price_range.1 price_range.2)
    let f2 := if selected_states = [] then f1 else
      f1.filter (fun r => decide (r.state ∈ selected_states))
    let f3 := if selected_cities = [] then f2 else
      f2.filter (fun r => decide (r.city ∈ selected_cities))
    if selected_cuisines = [] then f3 else f3.filter (cuisineOk selected_cuisines)

/-- Callback 1 (`set_cities_options`, lines 114-118): the city dropdown's
options from the selected states alone — `sorted(filtered_df[City].unique())`.
`sorted` is modelled by insertion sort and `unique` by `dedup`; the sorted
duplicate-free output is the same. -/
def set_cities_options (df : List Row) (selected_states : List String) : List String :=
  if selected_states = [] then []
  else
    List.insertionSort (· ≤ ·)
      (((df.filter (fun r => decide (r.state ∈ selected_states))).map Row.city).dedup)

/-- The key/multiplicity table behind `value_counts`: each distinct key of
the list with its number of occurrences. -/
def countKeys (l : List String) : List (String × ℕ) :=
  l.dedup.map (fun k => (k, l.count k))

/-- Descending order on counted keys: the left count is at least the right
one. -/
def countGe (a b : String × ℕ) : Prop :=
  b.2 ≤ a.2

instance : DecidableRel countGe :=
  fun a b => inferInstanceAs (Decidable (b.2 ≤ a.2))

instance : IsTotal (String × ℕ) countGe :=
  ⟨fun a b => Nat.le_total b.2 a.2⟩

instance : IsTrans (String × ℕ) countGe :=
  ⟨fun _ _ _ h1 h2 => le_trans h2 h1⟩

/-- `value_counts()` of pandas on a list of keys: the key/multiplicity
table sorted by descending count.  `nlargest(10)` keeps the 10 largest
counts, i.e. the first 10 entries of this ordering. -/
def value_counts (l : List String) : List (String × ℕ) :=
  List.insertionSort countGe (countKeys l)

/-- The bar-chart data (line 150): restaurants per city,
`value_counts().nlargest(10)`. -/
def topCities (fv : List Row) : List (String × ℕ) :=
  (value_counts (fv.map Row.city)).take 10

/-- The re-explosion of the multi-valued Food type column (line 154): split
every row's Food type on the delimiter and trim each token. -/
def explodeCuisines (fv : List Row) : List String :=
  fv.flatMap (fun r => (r.foodType.splitOn ", ").map String.trim)

/-- The pie-chart data (line 154): token frequency over the re-exploded
Food type column, `value_counts().nlargest(10)`. -/
def topCuisines (fv : List Row) : List (String × ℕ) :=
  (value_counts (explodeCuisines fv)).take 10

/-- The scatter-chart data (lines 158-162): one (Price, Avg ratings,
Restaurant) point per filtered row, no aggregation. -/
def scatterData (fv : List Row) : List (ℚ × ℚ × Option String) :=
  fv.map (fun r => (r.price, r.avgRatings, r.restaurant))

/-- The three figures of callback 2, by the data they plot. -/
structure Charts where
  bar : List (String × ℕ)
  pie : List (String × ℕ)
  scatter : List (ℚ × ℚ × Option String)
deriving DecidableEq

/-- Callback 2 (`update_graphs`, lines 130-164): filter the Base Table, then
build the three chart datasets from the Filtered View. -/
def update_graphs (df : List Row)
    (selected_states selected_cities selected_cuisines : List String)
    (price_range : ℚ × ℚ) : Charts :=
  let filtered_df := filterRows df selected_states selected_cities selected_cuisines price_range
  { bar := topCities filtered_df
    pie := topCuisines filtered_df
    scatter := scatterData filtered_df }

/-- Callback 1 with the process state made explicit: the callback reads the
module-level `df` and never assigns or mutates it (its only frame accesses
are reads), so the state after the call is returned unchanged alongside the
options. -/
def set_cities_options_call (df : List Row) (selected_states : List String) :
    List String × List Row :=
  (set_cities_options df selected_states, df)

/-- Callback 2 with the process state made explicit, as for callback 1:
`filtered_df` is a fresh frame (`df.copy()` or a filtered copy), never
written back to `df`. -/
def update_graphs_call (df : List Row)
    (selected_states selected_cities selected_cuisines : List String)
    (price_range : ℚ × ℚ) : Charts × List Row :=
  (update_graphs df selected_states selected_cities selected_cuisines price_range, df)

/-! ## Example Base Table (the spec's end-to-end rows, with integer ratings) -/

/-- Row A of a small concrete Base Table used to instantiate theorems. -/
def rowA : Row := ⟨some "A", "Maharashtra", "Pune", 300, 4, "Pizza, Burger"⟩

/-- Row B of the small concrete Base Table. -/
def rowB : Row := ⟨some "B", "Maharashtra", "Mumbai", 800, 3, "Biryani"⟩

/-- Row C of the small concrete Base Table. -/
def rowC : Row := ⟨some "C", "Karnataka", "Bengaluru", 500, 4, "Pizza"⟩

/-- A small concrete Base Table. -/
def exampleBase : List Row := [rowA, rowB, rowC]

/-! ## Helper lemmas -/

/-- A successful `readCell` returns the cell's own text, which is then
non-empty. -/
theorem readCell_eq_some {s x : String} (h : readCell s = some x) :
    x = s ∧ s ≠ "" := by
  unfold readCell at h
  split at h <;> simp_all

/-- `readCell` yields NaN exactly on the empty cell. -/
theorem readCell_eq_none {s : String} : readCell s = none ↔ s = "" := by
  unfold readCell
  split <;> simp_all

/-- What a raw record that survives the cleaning tells about its row. -/
theorem cleanRow_eq_some {raw : RawRow} {r : Row} (h : cleanRow raw = some r) :
    to_numeric raw.price = some r.price ∧
    to_numeric raw.avgRatings = some r.avgRatings ∧
    readCell raw.state = some r.state ∧
    readCell raw.city = some r.city ∧
    readCell raw.foodType = some r.foodType := by
  unfold cleanRow at h
  rcases hp : to_numeric raw.price with _ | p <;>
    rcases ha : to_numeric raw.avgRatings with _ | a <;>
    rcases hs : readCell raw.state with _ | s <;>
    rcases hc : readCell raw.city with _ | c <;>
    rcases hf : readCell raw.foodType with _ | f <;>
    simp [hp, ha, hs, hc, hf] at h <;>
    simp_all [← h]

/-- A raw record is dropped by the cleaning exactly when one of the five
column checks fails. -/
theorem cleanRow_eq_none (raw : RawRow) :
    cleanRow raw = none ↔
      (to_numeric raw.price = none ∨ to_numeric raw.avgRatings = none ∨
       raw.state = "" ∨ raw.city = "" ∨ raw.foodType = "") := by
  unfold cleanRow
  rcases hp : to_numeric raw.price with _ | p <;>
    rcases ha : to_numeric raw.avgRatings with _ | a <;>
    rcases hs : readCell raw.state with _ | s <;>
    rcases hc : readCell raw.city with _ | c <;>
    rcases hf : readCell raw.foodType with _ | f <;>
    simp [hp, ha, hs, hc, hf, ← readCell_eq_none]

/-- An `if` that either keeps a list or filters it yields a sublist. -/
theorem ite_filter_sublist {α : Type} (c : Prop) [Decidable c]
    (l : List α) (p : α → Bool) :
    List.Sublist (if c then l else l.filter p) l := by
  split
  · exact List.Sublist.refl l
  · exact List.filter_sublist l

/-! ## The claims -/

/-- Claim C1: with all three dropdowns empty, the filter of `update_graphs`
returns the whole Base Table unchanged, whatever the price range is. -/
theorem C1_no_filter_returns_base (df : List Row) (price_range : ℚ × ℚ) :
    filterRows df [] [] [] price_range = df := rfl

/-- Claim C2: when at least one categorical selection is non-empty, a row
of the Base Table is in the filtered result exactly when its price lies in
the closed slider interval, and each non-empty selection matches it: states
and cities by membership, cuisines when some selected token is a substring
of the raw Food type string. -/
theorem C2_conjunctive_filter (df : List Row)
    (states cities cuisines : List String) (pr : ℚ × ℚ) (r : Row)
    (hne : ¬(states = [] ∧ cities = [] ∧ cuisines = [])) (hr : r ∈ df) :
    r ∈ filterRows df states cities cuisines pr ↔
      (pr.1 ≤ r.price ∧ r.price ≤ pr.2) ∧
      (states = [] ∨ r.state ∈ states) ∧
      (cities = [] ∨ r.city ∈ cities) ∧
      (cuisines = [] ∨ ∃ c ∈ cuisines, strIn c r.foodType = true) := by
  rw [filterRows, if_neg hne]
  by_cases hs : states = [] <;> by_cases hc : cities = [] <;>
    by_cases hk : cuisines = [] <;>
    simp [hs, hc, hk, List.mem_filter, priceOk, cuisineOk, hr]
  all_goals tauto

/-- Witness for C2 at the concrete Base Table with only a state selected. -/
theorem C2_witness :
    rowA ∈ filterRows exampleBase ["Maharashtra"] [] [] ((0 : ℚ), 1000) ↔
      (((0 : ℚ), (1000 : ℚ)).1 ≤ rowA.price ∧ rowA.price ≤ ((0 : ℚ), (1000 : ℚ)).2) ∧
      (["Maharashtra"] = ([] : List String) ∨ rowA.state ∈ ["Maharashtra"]) ∧
      (([] : List String) = [] ∨ rowA.city ∈ ([] : List String)) ∧
      (([] : List String) = [] ∨ ∃ c ∈ ([] : List String), strIn c rowA.foodType = true) :=
  C2_conjunctive_filter exampleBase ["Maharashtra"] [] [] ((0 : ℚ), 1000) rowA
    (by decide) (by decide)

/-- Claim C3: the city options are empty when no state is selected;
otherwise they are exactly the sorted duplicate-free city values of the
Base-Table rows whose state is selected (strictly sorted, and containing a
city exactly when some selected-state row carries it); `set_cities_options`
takes no other filter into account. -/
theorem C3_cities_cascade (df : List Row) (states : List String) :
    (states = [] → set_cities_options df states = []) ∧
    (states ≠ [] →
      (set_cities_options df states).Sorted (· < ·) ∧
      ∀ c, c ∈ set_cities_options df states ↔
        ∃ r ∈ df, r.state ∈ states ∧ r.city = c) := by
  constructor
  · intro h
    simp [set_cities_options, h]
  · intro h
    unfold set_cities_options
    rw [if_neg h]
    constructor
    · have hnd : (((df.filter fun r => decide (r.state ∈ states)).map Row.city).dedup).Nodup :=
        List.nodup_dedup _
      have hsorted :=
        List.sorted_insertionSort (r := (· ≤ ·))
          (((df.filter fun r => decide (r.state ∈ states)).map Row.city).dedup)
      exact hsorted.lt_of_le ((List.perm_insertionSort _ _).symm.nodup hnd)
    · intro c
      rw [List.mem_insertionSort]
      simp only [List.mem_dedup, List.mem_map, List.mem_filter, decide_eq_true_eq]
      tauto

/-- Witness for C3 at the concrete Base Table: both the empty-states case
and a one-state case, with the hypotheses discharged concretely. -/
theorem C3_witness :
    (set_cities_options exampleBase [] = []) ∧
    ((set_cities_options exampleBase ["Maharashtra"]).Sorted (· < ·) ∧
      ∀ c, c ∈ set_cities_options exampleBase ["Maharashtra"] ↔
        ∃ r ∈ exampleBase, r.state ∈ ["Maharashtra"] ∧ r.city = c) :=
  ⟨(C3_cities_cascade exampleBase []).1 rfl,
   (C3_cities_cascade exampleBase ["Maharashtra"]).2 (by decide)⟩

/-- Claim C4: every loaded row carries a successfully coerced numeric price
and rating (they are the successful `to_numeric` results of some raw record
of the input) and non-empty State, City and Food type; and the cleaning
drops a raw record exactly when a coercion fails or a categorical cell is
missing. -/
theorem C4_load_invariant (t : List RawRow) :
    (∀ r ∈ load t,
      (∃ raw ∈ t, to_numeric raw.price = some r.price ∧
        to_numeric raw.avgRatings = some r.avgRatings) ∧
      r.state ≠ "" ∧ r.city ≠ "" ∧ r.foodType ≠ "") ∧
    (∀ raw ∈ t, cleanRow raw = none ↔
      (to_numeric raw.price = none ∨ to_numeric raw.avgRatings = none ∨
       raw.state = "" ∨ raw.city = "" ∨ raw.foodType = "")) := by
  constructor
  · intro r hr
    rcases List.mem_filterMap.mp hr with ⟨raw, hraw, hclean⟩
    obtain ⟨hp, ha, hs, hc, hf⟩ := cleanRow_eq_some hclean
    obtain ⟨hs1, hs2⟩ := readCell_eq_some hs
    obtain ⟨hc1, hc2⟩ := readCell_eq_some hc
    obtain ⟨hf1, hf2⟩ := readCell_eq_some hf
    exact ⟨⟨raw, hraw, hp, ha⟩, hs1 ▸ hs2, hc1 ▸ hc2, hf1 ▸ hf2⟩
  · intro raw _
    exact cleanRow_eq_none raw

/-- Claim C5: the bar (top cities) and pie (top cuisines) datasets have at
most 10 entries each and are sorted by descending count. -/
theorem C5_top10_sorted (fv : List Row) :
    ((topCities fv).length ≤ 10 ∧
      (topCities fv).Sorted (fun a b => b.2 ≤ a.2)) ∧
    ((topCuisines fv).length ≤ 10 ∧
      (topCuisines fv).Sorted (fun a b => b.2 ≤ a.2)) := by
  refine ⟨⟨?_, ?_⟩, ⟨?_, ?_⟩⟩
  · rw [topCities, List.length_take]
    exact min_le_left _ _
  · exact List.Pairwise.sublist (List.take_sublist 10 _)
      (List.sorted_insertionSort countGe _)
  · rw [topCuisines, List.length_take]
    exact min_le_left _ _
  · exact List.Pairwise.sublist (List.take_sublist 10 _)
      (List.sorted_insertionSort countGe _)

/-- Claim C6: on an empty Filtered View all three chart datasets are the
empty list — the aggregations are total functions, with no failure case. -/
theorem C6_empty_aggregations :
    topCities [] = [] ∧ topCuisines [] = [] ∧ scatterData [] = [] :=
  ⟨rfl, rfl, rfl⟩

/-- Claim C7: the Filtered View is a sublist of the Base Table: its rows
appear in the Base Table's original relative order. -/
theorem C7_filter_sublist (df : List Row)
    (states cities cuisines : List String) (pr : ℚ × ℚ) :
    List.Sublist (filterRows df states cities cuisines pr) df := by
  rw [filterRows]
  split
  · exact List.Sublist.refl _
  · exact (ite_filter_sublist _ _ _).trans
      ((ite_filter_sublist _ _ _).trans
        ((ite_filter_sublist _ _ _).trans (List.filter_sublist _)))

/-- Claim C8: when the CSV cannot be read, start-up produces the printed
diagnostic (which names the missing file `swiggy state .csv`) and no Base
Table, so the app never starts; `startup` offers no retry path. -/
theorem C8_missing_file_fatal :
    startup none = Except.error
      "Error: swiggy state .csv not found. Make sure the file is in the same folder as app.py" ∧
    strIn "swiggy state .csv"
      "Error: swiggy state .csv not found. Make sure the file is in the same folder as app.py"
      = true ∧
    ∀ df, startup none ≠ Except.ok df := by
  refine ⟨rfl, by decide, fun df h => by simp [startup] at h⟩

/-- Claim C9: neither callback mutates the Base Table — with the process
state passed explicitly, the table after each call equals the table before
it, for all inputs. -/
theorem C9_callbacks_preserve_df (df : List Row)
    (selected_states selected_cities selected_cuisines : List String)
    (price_range : ℚ × ℚ) :
    (set_cities_options_call df selected_states).2 = df ∧
    (update_graphs_call df selected_states selected_cities selected_cuisines
      price_range).2 = df :=
  ⟨rfl, rfl⟩

/-- Claim C10: `update_graphs` is deterministic — two calls on the same
Base Table with equal selections produce equal Filtered Views and equal
data for all three charts. -/
theorem C10_update_graphs_deterministic (df : List Row)
    (s₁ c₁ k₁ s₂ c₂ k₂ : List String) (p₁ p₂ : ℚ × ℚ)
    (hs : s₁ = s₂) (hc : c₁ = c₂) (hk : k₁ = k₂) (hp : p₁ = p₂) :
    filterRows df s₁ c₁ k₁ p₁ = filterRows df s₂ c₂ k₂ p₂ ∧
    update_graphs df s₁ c₁ k₁ p₁ = update_graphs df s₂ c₂ k₂ p₂ := by
  subst hs; subst hc; subst hk; subst hp
  exact ⟨rfl, rfl⟩

/-- Witness for C10: two textually identical calls at a concrete input. -/
theorem C10_witness :
    filterRows exampleBase ["Maharashtra"] [] [] ((0 : ℚ), 1000) =
      filterRows exampleBase ["Maharashtra"] [] [] ((0 : ℚ), 1000) ∧
    update_graphs exampleBase ["Maharashtra"] [] [] ((0 : ℚ), 1000) =
      update_graphs exampleBase ["Maharashtra"] [] [] ((0 : ℚ), 1000) :=
  C10_update_graphs_deterministic exampleBase
    ["Maharashtra"] [] [] ["Maharashtra"] [] [] ((0 : ℚ), 1000) ((0 : ℚ), 1000)
    rfl rfl rfl rfl

end Swiggy
